import Mathlib

/-!
Shallow embedding of `src/bf_bot_core/src/arena.rs` from the
BrainFuckedEvolve repository: the round-simulation engine ("Arena")
that runs two Brainfuck-like bots against each other on a shared,
bounded tape of signed 8-bit wrapping cells.

Tape cells are modelled as `Int` values kept in the signed 8-bit range
by explicit wraparound (`wrap8`).  The bot interpreter (`BotInPlay`,
whose source is outside the given sources) is modelled from the spec
as an abstract deterministic state machine exposing exactly the
interface the arena consumes: current position, program-ended flag,
execute-one-instruction, and advance-the-instruction-pointer.
-/

/-- Two's-complement wraparound into the signed 8-bit range [-128, 127],
the arithmetic performed by `i8::wrapping_add` in the source. -/
def wrap8 (x : Int) : Int := (x + 128) % 256 - 128

/-- A deferred tape write produced by a bot interpreter: a target tape
index and a signed addend, mirroring `bot_in_play::Mutation`. -/
structure Mutation where
  index : Nat
  addend : Int
  deriving DecidableEq

/-- Mirrors `round::RoundParams`: tape length, step budget, polarity flag. -/
structure RoundParams where
  tape_length : Nat
  max_steps : Nat
  invert_polarity : Bool
  deriving DecidableEq

/-- Mirrors `round::RoundResult`: the verdict pair. -/
structure RoundResult where
  contestant_a_lost : Bool
  contestant_b_lost : Bool
  deriving DecidableEq

/-- `RoundResult::new`. -/
def RoundResult.new (contestant_a_lost contestant_b_lost : Bool) : RoundResult :=
  ⟨contestant_a_lost, contestant_b_lost⟩

/-- Modelled from the spec: the `bot_in_play::BotInPlay` contestant slot,
whose source is outside the given sources.  Per the external-interface
section of the spec it is a deterministic machine over some private
state type exposing: the current tape position (a signed integer that
may be outside tape bounds), a monotonic program-has-ended flag,
execute-one-instruction (given whether the cell at the current position
is exactly zero, returning an optional deferred `Mutation` and the
updated private state), and a separate advance-the-instruction-pointer
operation. -/
structure BotInPlay (σ : Type) where
  state : σ
  program_has_ended : σ → Bool
  get_pos : σ → Int
  execute_code : σ → Bool → Option Mutation × σ
  increment_code_pointer : σ → σ

/-- Modelled from the spec: `BotInPlay::bot_is_off_tape`, true when the
position has moved strictly outside the valid index range [0, N-1]. -/
def BotInPlay.bot_is_off_tape {σ : Type} (b : BotInPlay σ) (tape_length : Int) : Bool :=
  b.get_pos b.state < 0 || tape_length ≤ b.get_pos b.state

/-- Modelled from the spec: the read `tape[bot_in_play.get_pos()] == 0`
performed by `Arena::step_bot`.  The position accessor lives outside the
given sources; an out-of-range position is modelled as reading a
non-zero cell (the original indexes the tape directly). -/
def cellIsZero (tape : List Int) (pos : Int) : Bool :=
  decide (0 ≤ pos) && decide (pos < tape.length) && (tape.getD pos.toNat 1 == 0)

/-- Mirrors `Arena`: step budget, tick counter, shared tape, and the two
contestant slots. -/
structure Arena (σ₁ σ₂ : Type) where
  max_steps : Nat
  step_nr : Nat
  tape : List Int
  start_bot : BotInPlay σ₁
  end_bot : BotInPlay σ₂

/-- `Arena::make_tape`: a zeroed tape of the given length with both flag
cells set to `i8::min_value()`.  In the source, `tape[0] = ...` panics on
an empty vector, modelled here as `none`; for any positive length both
sentinel writes are in range. -/
def Arena.make_tape (length : Nat) : Option (List Int) :=
  if length = 0 then none
  else some (((List.replicate length (0 : Int)).set 0 (-128)).set (length - 1) (-128))

/-- `Arena::new`.  The construction of the two `BotInPlay` slots from the
raw bot programs happens outside the given sources, so the slots are
taken as inputs; the tape construction (the part that can fail) is the
one from `make_tape`. -/
def Arena.new {σ₁ σ₂ : Type} (bot1 : BotInPlay σ₁) (bot2 : BotInPlay σ₂)
    (round_params : RoundParams) : Option (Arena σ₁ σ₂) :=
  (Arena.make_tape round_params.tape_length).map fun tape =>
    { max_steps := round_params.max_steps
      step_nr := 0
      tape := tape
      start_bot := bot1
      end_bot := bot2 }

/-- `Arena::step_bot`: if the program has ended, do nothing and report no
mutation; otherwise execute one instruction against the given tape and
advance the instruction pointer. -/
def Arena.step_bot {σ : Type} (bot_in_play : BotInPlay σ) (tape : List Int) :
    Option Mutation × BotInPlay σ :=
  if bot_in_play.program_has_ended bot_in_play.state then (none, bot_in_play)
  else
    let current_cell_is_zero := cellIsZero tape (bot_in_play.get_pos bot_in_play.state)
    let result := bot_in_play.execute_code bot_in_play.state current_cell_is_zero
    (result.1, { bot_in_play with state := bot_in_play.increment_code_pointer result.2 })

/-- Application of one optional deferred mutation to the tape, the
`wrapping_add` write in `Arena::step`.  (`List.set` out of range is a
no-op; the mutations produced by the interpreter target the cell it
just read.) -/
def applyMutation (tape : List Int) : Option Mutation → List Int
  | none => tape
  | some mutation =>
      tape.set mutation.index (wrap8 (tape.getD mutation.index 0 + mutation.addend))

/-- `Arena::step`: both contestants act against the same pre-tick tape,
then the collected mutations are applied in slot order (start bot first,
end bot second), then the tick counter is incremented. -/
def Arena.step {σ₁ σ₂ : Type} (a : Arena σ₁ σ₂) : Arena σ₁ σ₂ :=
  let r1 := Arena.step_bot a.start_bot a.tape
  let r2 := Arena.step_bot a.end_bot a.tape
  { a with
    tape := applyMutation (applyMutation a.tape r1.1) r2.1
    start_bot := r1.2
    end_bot := r2.2
    step_nr := a.step_nr + 1 }

/-- `Arena::flag_a_zeroed`: `self.tape[0] == 0`. -/
def Arena.flag_a_zeroed {σ₁ σ₂ : Type} (a : Arena σ₁ σ₂) : Bool :=
  a.tape.getD 0 1 == 0

/-- `Arena::flag_b_zeroed`: `self.tape[self.tape.len() - 1] == 0`. -/
def Arena.flag_b_zeroed {σ₁ σ₂ : Type} (a : Arena σ₁ σ₂) : Bool :=
  a.tape.getD (a.tape.length - 1) 1 == 0

/-- `Arena::generate_result`: the verdict depends only on flag A. -/
def Arena.generate_result {σ₁ σ₂ : Type} (a : Arena σ₁ σ₂) : RoundResult :=
  if a.flag_a_zeroed then RoundResult.new true true
  else RoundResult.new false false

/-- `Arena::exceeded_max_steps`: `self.step_nr >= self.max_steps`. -/
def Arena.exceeded_max_steps {σ₁ σ₂ : Type} (a : Arena σ₁ σ₂) : Bool :=
  decide (a.max_steps ≤ a.step_nr)

/-- `Arena::both_programs_ended`. -/
def Arena.both_programs_ended {σ₁ σ₂ : Type} (a : Arena σ₁ σ₂) : Bool :=
  a.start_bot.program_has_ended a.start_bot.state
    && a.end_bot.program_has_ended a.end_bot.state

/-- `Arena::has_loser`, called after a step with the pre-step zero
snapshots of the two flag cells. -/
def Arena.has_loser {σ₁ σ₂ : Type} (a : Arena σ₁ σ₂)
    (flag_a_previously_zeroed flag_b_previously_zeroed : Bool) : Bool :=
  a.start_bot.bot_is_off_tape (a.tape.length : Int)
    || (flag_a_previously_zeroed && a.flag_a_zeroed)
    || a.end_bot.bot_is_off_tape (a.tape.length : Int)
    || (flag_b_previously_zeroed && a.flag_b_zeroed)

/-- `<Arena as Iterator>::next`.  Returns the emitted item (`some none`
for a still-running tick, `some (some result)` for a decided round)
together with the arena state after the call.  The flag snapshots passed
to `has_loser` are taken before stepping, exactly as in the source. -/
def Arena.next {σ₁ σ₂ : Type} (a : Arena σ₁ σ₂) :
    Option (Option RoundResult) × Arena σ₁ σ₂ :=
  if a.exceeded_max_steps || a.both_programs_ended then
    (some (some a.generate_result), a)
  else if (a.step).has_loser a.flag_a_zeroed a.flag_b_zeroed then
    (some (some (a.step).generate_result), a.step)
  else
    (some none, a.step)

/-- The arena state after one `next` call. -/
def Arena.nextState {σ₁ σ₂ : Type} (a : Arena σ₁ σ₂) : Arena σ₁ σ₂ :=
  (Arena.next a).2

/-- The item emitted by the n-th `next` call (0-indexed) when the
iterator is driven from the given arena. -/
def Arena.outcome {σ₁ σ₂ : Type} (a : Arena σ₁ σ₂) (n : Nat) :
    Option (Option RoundResult) :=
  (Arena.next (Arena.nextState^[n] a)).1

/-! ### Concrete contestant slots and arenas, used by the witnesses -/

/-- A concrete contestant slot whose program has already ended. -/
def endedBot : BotInPlay Unit :=
  { state := ()
    program_has_ended := fun _ => true
    get_pos := fun _ => 0
    execute_code := fun s _ => (none, s)
    increment_code_pointer := fun s => s }

/-- A concrete contestant slot that never ends its program, stays at
index 1, and never writes. -/
def idleBot : BotInPlay Unit :=
  { state := ()
    program_has_ended := fun _ => false
    get_pos := fun _ => 1
    execute_code := fun s _ => (none, s)
    increment_code_pointer := fun s => s }

/-- A freshly constructed three-cell arena with a zero step budget. -/
def arenaZeroBudget : Arena Unit Unit :=
  { max_steps := 0, step_nr := 0, tape := [-128, 0, -128]
    start_bot := idleBot, end_bot := idleBot }

/-- A freshly constructed three-cell arena with budget left and two
never-ending idle contestants. -/
def arenaRunning : Arena Unit Unit :=
  { max_steps := 5, step_nr := 0, tape := [-128, 0, -128]
    start_bot := idleBot, end_bot := idleBot }

/-- A freshly constructed three-cell arena whose two contestants have
already ended their programs. -/
def arenaEnded : Arena Unit Unit :=
  { max_steps := 5, step_nr := 0, tape := [-128, 0, -128]
    start_bot := endedBot, end_bot := endedBot }


/-! ### Helper lemmas -/

/-- Wrapping an already-wrapped left summand changes nothing. -/
theorem wrap8_wrap8_add (x y : Int) : wrap8 (wrap8 x + y) = wrap8 (x + y) := by
  unfold wrap8
  omega

/-- Reading back the cell a `set` just wrote, when the write is in range. -/
theorem getD_set_self (t : List Int) (i : Nat) (v d : Int) (h : i < t.length) :
    (t.set i v).getD i d = v := by
  rw [List.getD_eq_getElem?_getD, List.getElem?_set_self h]
  rfl

/-- Reading a cell other than the one a `set` wrote. -/
theorem getD_set_ne (t : List Int) (i j : Nat) (v d : Int) (h : i ≠ j) :
    (t.set i v).getD j d = t.getD j d := by
  rw [List.getD_eq_getElem?_getD, List.getElem?_set_ne h, ← List.getD_eq_getElem?_getD]

/-- Applying one optional mutation preserves the tape length. -/
theorem applyMutation_length (t : List Int) (m : Option Mutation) :
    (applyMutation t m).length = t.length := by
  rcases m with _ | m
  · rfl
  · simp [applyMutation]

/-- A tick preserves the tape length. -/
theorem step_tape_length {σ₁ σ₂ : Type} (a : Arena σ₁ σ₂) :
    (Arena.step a).tape.length = a.tape.length := by
  simp [Arena.step, applyMutation_length]

/-- The two deferred writes of one tick can be applied in either order. -/
theorem applyMutation_comm (tape : List Int) (m1 m2 : Option Mutation) :
    applyMutation (applyMutation tape m1) m2
      = applyMutation (applyMutation tape m2) m1 := by
  rcases m1 with _ | m1
  · rfl
  rcases m2 with _ | m2
  · rfl
  by_cases hij : m1.index = m2.index
  · by_cases hlen : m1.index < tape.length
    · simp only [applyMutation, ← hij, List.set_set]
      rw [getD_set_self _ _ _ _ hlen, getD_set_self _ _ _ _ hlen,
        wrap8_wrap8_add, wrap8_wrap8_add]
      have : tape.getD m1.index 0 + m1.addend + m2.addend
          = tape.getD m1.index 0 + m2.addend + m1.addend := by omega
      rw [this]
    · have hle : tape.length ≤ m1.index := Nat.le_of_not_lt hlen
      simp only [applyMutation, ← hij, List.set_eq_of_length_le hle]
  · simp only [applyMutation]
    rw [getD_set_ne _ _ _ _ _ hij, getD_set_ne _ _ _ _ _ (Ne.symm hij),
      List.set_comm _ _ _ hij]

/-! ### The claims -/

/-- Claim C4: within a single tick, both contestants' mutations are
computed against the identical pre-tick tape state (the final tape is
obtained by applying, to the pre-tick tape, the two mutations each
computed from that same pre-tick tape), and applying the two collected
mutations in either order yields the same final tape contents. -/
theorem step_snapshot_and_order_independent {σ₁ σ₂ : Type} (a : Arena σ₁ σ₂) :
    (Arena.step a).tape
        = applyMutation (applyMutation a.tape (Arena.step_bot a.start_bot a.tape).1)
            (Arena.step_bot a.end_bot a.tape).1
      ∧ applyMutation (applyMutation a.tape (Arena.step_bot a.start_bot a.tape).1)
            (Arena.step_bot a.end_bot a.tape).1
        = applyMutation (applyMutation a.tape (Arena.step_bot a.end_bot a.tape).1)
            (Arena.step_bot a.start_bot a.tape).1 :=
  ⟨rfl, applyMutation_comm _ _ _⟩

/-- Claim C10: the iterator never reports exhaustion: from every engine
state, `next` emits an item (`Option.isSome`), never the
iterator-exhausted `none`. -/
theorem next_always_emits {σ₁ σ₂ : Type} (a : Arena σ₁ σ₂) :
    ((Arena.next a).1).isSome = true := by
  unfold Arena.next
  split
  · rfl
  · split <;> rfl

/-- Claim C3: for every tape length N ≥ 2, construction initializes tape
index 0 and tape index N-1 to -128 (the minimum signed 8-bit value) and
every other index to 0. -/
theorem make_tape_initializes_flags (N : Nat) (h : 2 ≤ N) :
    ∃ t, Arena.make_tape N = some t ∧ t.length = N ∧
      t.getD 0 0 = -128 ∧ t.getD (N - 1) 0 = -128 ∧
      ∀ i, 0 < i → i < N - 1 → t.getD i 0 = 0 := by
  have hN : ¬ N = 0 := by omega
  refine ⟨_, by rw [Arena.make_tape, if_neg hN], ?_, ?_, ?_, ?_⟩
  · simp
  · rw [getD_set_ne _ _ _ _ _ (by omega : N - 1 ≠ 0),
      getD_set_self _ _ _ _ (by simp; omega)]
  · rw [getD_set_self _ _ _ _ (by simp; omega)]
  · intro i h1 h2
    rw [getD_set_ne _ _ _ _ _ (by omega : N - 1 ≠ i),
      getD_set_ne _ _ _ _ _ (by omega : 0 ≠ i),
      List.getD_eq_getElem?_getD, List.getElem?_replicate_of_lt (by omega)]
    rfl

/-- Claim C1: whenever `next` produces a round result (by any of the
terminal paths: loss condition, met step budget, or both programs
ended), that result is determined solely by whether the cell at tape
index 0 of the resulting state reads exactly zero: both contestants
lost if so, neither otherwise. -/
theorem round_result_determined_by_flag_a {σ₁ σ₂ : Type} (a : Arena σ₁ σ₂)
    (r : RoundResult) (h : (Arena.next a).1 = some (some r)) :
    r = if (Arena.next a).2.flag_a_zeroed then RoundResult.new true true
        else RoundResult.new false false := by
  by_cases h1 : (a.exceeded_max_steps || a.both_programs_ended) = true
  · simp only [Arena.next, h1, if_true, Option.some.injEq] at h ⊢
    rw [← h]
    rfl
  · by_cases h2 : (Arena.step a).has_loser a.flag_a_zeroed a.flag_b_zeroed = true
    · simp only [Arena.next, h1, h2, if_true, if_false, Bool.false_eq_true,
        Option.some.injEq] at h ⊢
      rw [← h]
      rfl
    · simp [Arena.next, h1, h2] at h

/-- Witness for C1 at the zero-budget arena. -/
theorem round_result_determined_by_flag_a_witness :
    (Arena.next arenaZeroBudget).1 = some (some (RoundResult.new false false))
      ∧ RoundResult.new false false
          = if (Arena.next arenaZeroBudget).2.flag_a_zeroed then RoundResult.new true true
            else RoundResult.new false false :=
  ⟨rfl, round_result_determined_by_flag_a arenaZeroBudget (RoundResult.new false false) rfl⟩

/-- Witness for C3 at N = 4. -/
theorem make_tape_initializes_flags_witness :
    2 ≤ 4 ∧ ∃ t, Arena.make_tape 4 = some t ∧ t.length = 4 ∧
      t.getD 0 0 = -128 ∧ t.getD (4 - 1) 0 = -128 ∧
      ∀ i, 0 < i → i < 4 - 1 → t.getD i 0 = 0 :=
  ⟨by omega, make_tape_initializes_flags 4 (by omega)⟩

/-- Fields of a successfully constructed arena: the tick counter starts
at zero, the budget and slots are taken from the inputs, the tape from
`make_tape`. -/
theorem new_fields {σ₁ σ₂ : Type} (bot1 : BotInPlay σ₁) (bot2 : BotInPlay σ₂)
    (p : RoundParams) (a : Arena σ₁ σ₂) (h : Arena.new bot1 bot2 p = some a) :
    a.step_nr = 0 ∧ a.max_steps = p.max_steps ∧ a.start_bot = bot1
      ∧ a.end_bot = bot2 ∧ Arena.make_tape p.tape_length = some a.tape := by
  rcases hmt : Arena.make_tape p.tape_length with _ | t <;> rw [Arena.new, hmt] at h
  · exact absurd h (by simp)
  · simp only [Option.map_some', Option.some.injEq] at h
    subst h
    exact ⟨rfl, rfl, rfl, rfl, rfl⟩

/-- The first cell of any successfully constructed tape is -128. -/
theorem make_tape_head (N : Nat) (t : List Int) (h : Arena.make_tape N = some t) :
    t.getD 0 1 = -128 := by
  rw [Arena.make_tape] at h
  by_cases hN : N = 0
  · rw [if_pos hN] at h
    exact absurd h (by simp)
  · rw [if_neg hN] at h
    simp only [Option.some.injEq] at h
    subst h
    by_cases h1 : N - 1 = 0
    · rw [h1, List.set_set, getD_set_self _ _ _ _ (by simp; omega)]
    · rw [getD_set_ne _ _ _ _ _ h1, getD_set_self _ _ _ _ (by simp; omega)]

/-- Claim C2: on every tick that actually executes (the step budget is
not yet met and not both programs have ended), `next` signals Decided
if and only if some contestant's post-step tape position lies strictly
outside the valid index range [0, N-1], or some contestant's associated
flag cell read exactly zero both immediately before and immediately
after the tick; otherwise it signals still-running with no result. -/
theorem tick_decided_iff_loss {σ₁ σ₂ : Type} (a : Arena σ₁ σ₂)
    (h1 : a.exceeded_max_steps = false) (h2 : a.both_programs_ended = false) :
    ((∃ r, (Arena.next a).1 = some (some r)) ↔
        (((Arena.step a).start_bot.get_pos (Arena.step a).start_bot.state < 0
            ∨ (a.tape.length : Int)
                ≤ (Arena.step a).start_bot.get_pos (Arena.step a).start_bot.state)
          ∨ (a.flag_a_zeroed = true ∧ (Arena.step a).flag_a_zeroed = true)
          ∨ ((Arena.step a).end_bot.get_pos (Arena.step a).end_bot.state < 0
            ∨ (a.tape.length : Int)
                ≤ (Arena.step a).end_bot.get_pos (Arena.step a).end_bot.state)
          ∨ (a.flag_b_zeroed = true ∧ (Arena.step a).flag_b_zeroed = true)))
      ∧ (¬(∃ r, (Arena.next a).1 = some (some r)) → (Arena.next a).1 = some none) := by
  have hcond : (a.exceeded_max_steps || a.both_programs_ended) = false := by
    rw [h1, h2]
    rfl
  have key : ((Arena.step a).has_loser a.flag_a_zeroed a.flag_b_zeroed = true) ↔
      (((Arena.step a).start_bot.get_pos (Arena.step a).start_bot.state < 0
          ∨ (a.tape.length : Int)
              ≤ (Arena.step a).start_bot.get_pos (Arena.step a).start_bot.state)
        ∨ (a.flag_a_zeroed = true ∧ (Arena.step a).flag_a_zeroed = true)
        ∨ ((Arena.step a).end_bot.get_pos (Arena.step a).end_bot.state < 0
          ∨ (a.tape.length : Int)
              ≤ (Arena.step a).end_bot.get_pos (Arena.step a).end_bot.state)
        ∨ (a.flag_b_zeroed = true ∧ (Arena.step a).flag_b_zeroed = true)) := by
    simp only [Arena.has_loser, BotInPlay.bot_is_off_tape, step_tape_length,
      Bool.or_eq_true, Bool.and_eq_true, decide_eq_true_eq]
    tauto
  by_cases hl : (Arena.step a).has_loser a.flag_a_zeroed a.flag_b_zeroed = true
  · have hres : (Arena.next a).1 = some (some ((Arena.step a).generate_result)) := by
      simp only [Arena.next, hcond, hl, Bool.false_eq_true, if_false, if_true]
    exact ⟨⟨fun _ => key.mp hl, fun _ => ⟨_, hres⟩⟩, fun hn => absurd ⟨_, hres⟩ hn⟩
  · rw [Bool.not_eq_true] at hl
    have hres : (Arena.next a).1 = some none := by
      simp only [Arena.next, hcond, hl, Bool.false_eq_true, if_false]
    constructor
    · constructor
      · intro he
        rcases he with ⟨r, hr⟩
        rw [hres] at hr
        exact absurd hr (by simp)
      · intro hr
        have hk := key.mpr hr
        rw [hl] at hk
        exact absurd hk (by simp)
    · intro _
      exact hres

/-- Witness for C2 at a running three-cell arena with two idle bots. -/
theorem tick_decided_iff_loss_witness :
    arenaRunning.exceeded_max_steps = false
      ∧ arenaRunning.both_programs_ended = false
      ∧ (((∃ r, (Arena.next arenaRunning).1 = some (some r)) ↔
            (((Arena.step arenaRunning).start_bot.get_pos
                  (Arena.step arenaRunning).start_bot.state < 0
                ∨ (arenaRunning.tape.length : Int)
                    ≤ (Arena.step arenaRunning).start_bot.get_pos
                        (Arena.step arenaRunning).start_bot.state)
              ∨ (arenaRunning.flag_a_zeroed = true
                  ∧ (Arena.step arenaRunning).flag_a_zeroed = true)
              ∨ ((Arena.step arenaRunning).end_bot.get_pos
                    (Arena.step arenaRunning).end_bot.state < 0
                ∨ (arenaRunning.tape.length : Int)
                    ≤ (Arena.step arenaRunning).end_bot.get_pos
                        (Arena.step arenaRunning).end_bot.state)
              ∨ (arenaRunning.flag_b_zeroed = true
                  ∧ (Arena.step arenaRunning).flag_b_zeroed = true)))
          ∧ (¬(∃ r, (Arena.next arenaRunning).1 = some (some r)) →
              (Arena.next arenaRunning).1 = some none)) :=
  ⟨rfl, rfl, tick_decided_iff_loss arenaRunning rfl rfl⟩

/-- Claim C5: two contestants whose programs have already ended decide
the round on the very first `next` call, for any step budget, because
the both-programs-ended terminal check runs before any stepping. -/
theorem empty_programs_decide_immediately {σ₁ σ₂ : Type}
    (bot1 : BotInPlay σ₁) (bot2 : BotInPlay σ₂) (p : RoundParams) (a : Arena σ₁ σ₂)
    (h1 : bot1.program_has_ended bot1.state = true)
    (h2 : bot2.program_has_ended bot2.state = true)
    (hnew : Arena.new bot1 bot2 p = some a) :
    ∃ r, (Arena.next a).1 = some (some r) := by
  obtain ⟨-, -, hsb, heb, -⟩ := new_fields bot1 bot2 p a hnew
  have hb : a.both_programs_ended = true := by
    rw [Arena.both_programs_ended, hsb, heb, h1, h2]
    rfl
  exact ⟨a.generate_result, by simp [Arena.next, hb]⟩

/-- Witness for C5 with two already-ended bots and budget 5. -/
theorem empty_programs_decide_immediately_witness :
    endedBot.program_has_ended endedBot.state = true
      ∧ Arena.new endedBot endedBot
          { tape_length := 3, max_steps := 5, invert_polarity := false } = some arenaEnded
      ∧ ∃ r, (Arena.next arenaEnded).1 = some (some r) :=
  ⟨rfl, rfl, empty_programs_decide_immediately endedBot endedBot
    { tape_length := 3, max_steps := 5, invert_polarity := false } arenaEnded rfl rfl rfl⟩

/-- Claim C6: with a zero step budget, the first `next` call on any
freshly constructed arena immediately decides with neither contestant
marked as lost, and does not mutate the tape. -/
theorem zero_budget_decides_immediately {σ₁ σ₂ : Type}
    (bot1 : BotInPlay σ₁) (bot2 : BotInPlay σ₂) (p : RoundParams) (a : Arena σ₁ σ₂)
    (hm : p.max_steps = 0)
    (hnew : Arena.new bot1 bot2 p = some a) :
    (Arena.next a).1 = some (some (RoundResult.new false false))
      ∧ (Arena.next a).2.tape = a.tape := by
  obtain ⟨hsn, hms, -, -, hmt⟩ := new_fields bot1 bot2 p a hnew
  have hex : a.exceeded_max_steps = true := by
    rw [Arena.exceeded_max_steps, hms, hm, hsn]
    rfl
  have hfa : a.flag_a_zeroed = false := by
    rw [Arena.flag_a_zeroed, make_tape_head _ _ hmt]
    decide
  constructor
  · simp [Arena.next, hex, Arena.generate_result, hfa]
  · simp [Arena.next, hex]

/-- Witness for C6 at a three-cell arena with zero budget. -/
theorem zero_budget_decides_immediately_witness :
    ({ tape_length := 3, max_steps := 0, invert_polarity := false } : RoundParams).max_steps = 0
      ∧ Arena.new idleBot idleBot
          { tape_length := 3, max_steps := 0, invert_polarity := false } = some arenaZeroBudget
      ∧ ((Arena.next arenaZeroBudget).1 = some (some (RoundResult.new false false))
          ∧ (Arena.next arenaZeroBudget).2.tape = arenaZeroBudget.tape) :=
  ⟨rfl, rfl, zero_budget_decides_immediately idleBot idleBot
    { tape_length := 3, max_steps := 0, invert_polarity := false } arenaZeroBudget rfl rfl⟩

/-- Counterexample to claim C7 as stated: a RoundParams with
tape_length = 1 (which is < 2) is not rejected; construction succeeds,
because both sentinel writes land on the single cell in range. -/
theorem construction_with_length_one_succeeds :
    (Arena.new endedBot endedBot
      { tape_length := 1, max_steps := 0, invert_polarity := false }).isSome = true := rfl

/-- Claim C7 (amended): for every RoundParams with tape_length = 0,
construction is rejected (the flag-cell initialization indexes an empty
tape); tape_length = 1 is accepted. -/
theorem construction_rejected_zero_length {σ₁ σ₂ : Type}
    (bot1 : BotInPlay σ₁) (bot2 : BotInPlay σ₂) (p : RoundParams)
    (h : p.tape_length = 0) :
    Arena.new bot1 bot2 p = none := by
  rw [Arena.new, Arena.make_tape, h]
  rfl

/-- Witness for the amended C7 at tape_length = 0. -/
theorem construction_rejected_zero_length_witness :
    ({ tape_length := 0, max_steps := 3, invert_polarity := false } : RoundParams).tape_length = 0
      ∧ Arena.new idleBot idleBot
          { tape_length := 0, max_steps := 3, invert_polarity := false } = none :=
  ⟨rfl, construction_rejected_zero_length idleBot idleBot
    { tape_length := 0, max_steps := 3, invert_polarity := false } rfl⟩

/-- Claim C8: two rounds constructed from identical RoundParams and
identical (deterministic) contestant slots emit identical tick-by-tick
outcome sequences; the engine introduces no hidden randomness. -/
theorem identical_construction_identical_outcomes {σ₁ σ₂ : Type}
    (bot1 : BotInPlay σ₁) (bot2 : BotInPlay σ₂) (p : RoundParams)
    (a1 a2 : Arena σ₁ σ₂)
    (h1 : Arena.new bot1 bot2 p = some a1)
    (h2 : Arena.new bot1 bot2 p = some a2) (n : Nat) :
    Arena.outcome a1 n = Arena.outcome a2 n := by
  rw [h1, Option.some.injEq] at h2
  rw [h2]

/-- Witness for C8 comparing the same construction with itself at tick 2. -/
theorem identical_construction_identical_outcomes_witness :
    Arena.new idleBot idleBot
        { tape_length := 3, max_steps := 5, invert_polarity := false } = some arenaRunning
      ∧ Arena.outcome arenaRunning 2 = Arena.outcome arenaRunning 2 :=
  ⟨rfl, identical_construction_identical_outcomes idleBot idleBot
    { tape_length := 3, max_steps := 5, invert_polarity := false } arenaRunning arenaRunning
    rfl rfl 2⟩

/-- One `next` call preserves the invariant that the tick counter never
exceeds the step budget: a step only executes when step_nr < max_steps,
because the budget check runs before stepping. -/
theorem nextState_preserves_budget {σ₁ σ₂ : Type} (a : Arena σ₁ σ₂)
    (h : a.step_nr ≤ a.max_steps) :
    (Arena.nextState a).step_nr ≤ (Arena.nextState a).max_steps := by
  unfold Arena.nextState Arena.next
  split
  · exact h
  · rename_i hc
    have hlt : a.step_nr < a.max_steps := by
      simp only [Bool.not_eq_true, Bool.or_eq_false_iff, Arena.exceeded_max_steps,
        decide_eq_false_iff_not, Nat.not_le] at hc
      exact hc.1
    split <;> simp [Arena.step] <;> omega

/-- Claim C9: from construction onward, after any number of `next`
calls, step_nr ≤ max_steps. -/
theorem step_budget_invariant {σ₁ σ₂ : Type}
    (bot1 : BotInPlay σ₁) (bot2 : BotInPlay σ₂) (p : RoundParams) (a : Arena σ₁ σ₂)
    (hnew : Arena.new bot1 bot2 p = some a) (n : Nat) :
    (Arena.nextState^[n] a).step_nr ≤ (Arena.nextState^[n] a).max_steps := by
  induction n with
  | zero =>
      obtain ⟨hsn, -, -, -, -⟩ := new_fields bot1 bot2 p a hnew
      simp [hsn]
  | succ k ih =>
      rw [Function.iterate_succ_apply']
      exact nextState_preserves_budget _ ih

/-- Witness for C9 after three calls on a freshly built arena. -/
theorem step_budget_invariant_witness :
    Arena.new idleBot idleBot
        { tape_length := 3, max_steps := 5, invert_polarity := false } = some arenaRunning
      ∧ (Arena.nextState^[3] arenaRunning).step_nr
          ≤ (Arena.nextState^[3] arenaRunning).max_steps :=
  ⟨rfl, step_budget_invariant idleBot idleBot
    { tape_length := 3, max_steps := 5, invert_polarity := false } arenaRunning rfl 3⟩
